import Mathlib

/-!
# Verification of the goweb session-authentication subsystem

Shallow embedding of the `authentication` package (JWT session issuance,
token parsing, auth middleware, credential handlers) together with proofs
of its specified properties.

Modelling conventions:
* `time.Time` instants and `time.Duration` values are `Int` (Unix seconds;
  `jwt.NewNumericDate` serialises to seconds anyway).
* A secret key (`[]byte` in Go) is a `String`; Go's `[]byte(s)` is injective
  on strings, so byte-slice equality coincides with string equality.
* The HMAC signature over a token is idealised as a perfect MAC: a signed
  token records the key it was signed with, and verification under key `k`
  succeeds exactly when that recorded key equals `k`.  Strings that do not
  parse as a JOSE compact serialisation at all are the `malformed`
  constructor.
* `token.SignedString` with an HMAC method cannot fail on these claims
  (HMAC signing and the JSON marshalling of the claims are total), so
  signing is modelled as total.
-/

namespace GoWeb

/-- A symmetric signing key (`[]byte` in Go, always built from a string). -/
abbrev Key := String

/-- `core.BaseModel`: gorm.Model fields plus `OwnedBy`. -/
structure BaseModel where
  ID : Nat
  CreatedAt : Int
  UpdatedAt : Int
  DeletedAt : Option Int
  OwnedBy : String
deriving DecidableEq

/-- The zero value of `core.BaseModel`. -/
def BaseModel.zero : BaseModel :=
  { ID := 0, CreatedAt := 0, UpdatedAt := 0, DeletedAt := none, OwnedBy := "" }

/-- `authentication.SessionUser`. -/
structure SessionUser where
  base : BaseModel
  Email : String
  Password : String
deriving DecidableEq

/-- The `claims` struct: `UserID` plus the registered temporal claims
(`ExpiresAt`, `IssuedAt`, `NotBefore`) that `createToken`/`NewSession`
populate. -/
structure claims where
  UserID : Nat
  ExpiresAt : Int
  IssuedAt : Int
  NotBefore : Int
deriving DecidableEq

/-- JWT signing algorithms, as far as the code distinguishes them: the
keyfunc accepts exactly the `jwt.SigningMethodHMAC` family. -/
inductive SigningMethod where
  | HS256
  | HS384
  | HS512
  | RS256
  | ES256
  | alg_none
deriving DecidableEq

/-- Whether the method is an instance of `*jwt.SigningMethodHMAC`. -/
def SigningMethod.isHMAC : SigningMethod → Bool
  | .HS256 => true
  | .HS384 => true
  | .HS512 => true
  | _ => false

/-- A token string, seen through the jwt library's wire parser: either a
structurally well-formed three-part token carrying an algorithm header, a
claims payload and a signature (idealised as the signing key), or a string
that fails structural parsing. -/
inductive Token where
  | signed (method : SigningMethod) (c : claims) (sigKey : Key)
  | malformed (raw : String)
deriving DecidableEq

/-- The two typed failures of the token codec
(`errInvalidToken`, `errExpiredToken`). -/
inductive AuthError where
  | errInvalidToken
  | errExpiredToken
deriving DecidableEq

/-- `authentication.Session`. `Token` is kept in parsed form (see `Token`);
the Go zero value `""` is `Token.malformed ""`. -/
structure Session where
  base : BaseModel
  User : Option SessionUser
  UserID : Nat
  Token : Token
  SecretKey : Key
  ExpiresAt : Int
  LastUsedAt : Int
  LastUsedIP : String
  LastUsedLoc : String
deriving DecidableEq

/-- `defaultTokenDuration = time.Hour * 24`, in seconds. -/
def defaultTokenDuration : Int := 86400

/-- The one-argument constructor `NewSession(secretKey)` used by the
middleware: every other field is the Go zero value. -/
def NewSessionWithKey (secretKey : Key) : Session :=
  { base := BaseModel.zero, User := none, UserID := 0,
    Token := Token.malformed "", SecretKey := secretKey,
    ExpiresAt := 0, LastUsedAt := 0, LastUsedIP := "", LastUsedLoc := "" }

/-- `(*Session).createToken(expirationTime)`: builds claims for the
session's user with `expiresAt = now + expirationTime`,
`issuedAt = notBefore = now`, signs them with HS256 under the session's
key, and stores the token and expiry on the session.  `now` is the instant
`time.Now()` returns during the call.  Errors with the message
`"session user not set"` when `s.User == nil`. -/
def Session.createToken (s : Session) (now : Int) (expirationTime : Int) :
    Except String Session :=
  match s.User with
  | none => .error "session user not set"
  | some user =>
    let c : claims :=
      { UserID := user.base.ID, ExpiresAt := now + expirationTime,
        IssuedAt := now, NotBefore := now }
    .ok { s with Token := Token.signed .HS256 c s.SecretKey,
                 ExpiresAt := now + expirationTime }

/-- `(*Session).parseToken()` at instant `now`:
`jwt.ParseWithClaims` with a keyfunc that rejects non-HMAC methods
(`errInvalidToken`); the library then checks the signature before
validating claims, so a wrong key yields `jwt.ErrTokenSignatureInvalid`,
mapped to `errInvalidToken`.  Claim validation (jwt/v5 defaults) checks
`exp` (valid iff `now < exp`, failure `jwt.ErrTokenExpired`, mapped to
`errExpiredToken`; `errors.Is` finds it even when joined with other claim
errors) and `nbf` (valid iff `nbf <= now`, failure mapped to
`errInvalidToken`); `iat` is not validated by default. -/
def parseToken (now : Int) (s : Session) : Except AuthError claims :=
  match s.Token with
  | .malformed _ => .error .errInvalidToken
  | .signed method c sigKey =>
    if ¬ method.isHMAC then .error .errInvalidToken
    else if sigKey ≠ s.SecretKey then .error .errInvalidToken
    else if c.ExpiresAt ≤ now then .error .errExpiredToken
    else if now < c.NotBefore then .error .errInvalidToken
    else .ok c

/-- `(*Session).validateToken()`: the error of `parseToken`, or `none`. -/
def Session.validateToken (s : Session) (now : Int) : Option AuthError :=
  match parseToken now s with
  | .error e => some e
  | .ok _ => none

/-- `(*Session).UpdateLastUsed(ip, location)` at instant `now`. -/
def Session.UpdateLastUsed (s : Session) (now : Int) (ip location : String) :
    Session :=
  { s with LastUsedAt := now, LastUsedIP := ip, LastUsedLoc := location }

/-- `NewSession(secretKey, user, clientIP, userAgent)` at instant `now`:
builds the signed claims with the fixed 24h TTL, stores token and expiry,
and records last-used info via `UpdateLastUsed`. -/
def NewSession (now : Int) (secretKey : Key) (user : SessionUser)
    (clientIP userAgent : String) : Session :=
  let c : claims :=
    { UserID := user.base.ID, ExpiresAt := now + defaultTokenDuration,
      IssuedAt := now, NotBefore := now }
  Session.UpdateLastUsed
    { base := BaseModel.zero, User := some user, UserID := user.base.ID,
      Token := Token.signed .HS256 c secretKey, SecretKey := secretKey,
      ExpiresAt := now + defaultTokenDuration,
      LastUsedAt := 0, LastUsedIP := "", LastUsedLoc := "" }
    now clientIP userAgent

/-- A value stored in the gin context's key/value bag (`interface{}`):
the middleware stores a `uint`; other dynamic types may occur. -/
inductive CtxValue where
  | vUint (n : Nat)
  | vInt (n : Int)
  | vString (s : String)
deriving DecidableEq

/-- The per-request key/value bag of `*gin.Context` (`c.Set`/`c.Get`). -/
abbrev GinCtx := List (String × CtxValue)

/-- `c.Get(k)`: the value bound to `k`, if any (first binding wins, so a
prepended binding overwrites). -/
def ctxGet (ctx : GinCtx) (k : String) : Option CtxValue :=
  match ctx.find? (fun p => p.1 == k) with
  | some p => some p.2
  | none => none

/-- `userKey = "user_id"`. -/
def userKey : String := "user_id"

/-- `bearerSchema = "Bearer "`. -/
def bearerSchema : String := "Bearer "

/-- `strings.HasPrefix` (byte-wise in Go; on UTF-8 values this coincides
with character-wise prefixing). -/
def goStringHasPre (s pre : String) : Bool :=
  pre.toList.isPrefixOf s.toList

/-- `strings.TrimPrefix`: drops the prefix when present, returns the
string unchanged otherwise. -/
def goStringTrimPre (s pre : String) : String :=
  if goStringHasPre s pre then String.mk (s.toList.drop pre.toList.length)
  else s

/-- `strings.TrimPrefix(authHeader, bearerSchema)`. -/
def trimBearer (s : String) : String :=
  goStringTrimPre s bearerSchema

/-- Outcome of a gin middleware on one request: `c.AbortWithStatusJSON`
with a status and the `error` message, or `c.Next()` with the context it
leaves for downstream handlers. -/
inductive GinResult where
  | aborted (status : Nat) (errorMsg : String)
  | nexted (ctx : GinCtx)
deriving DecidableEq

/-- The token-decoding stage of `AuthMiddleware`: builds
`NewSession(secretKey)` carrying the presented token, parses it, aborts
401 with `"Token has expired"`/`"Invalid token"` on failure, and on
success binds the claims' user id into the context and continues. -/
def tokenStep (secretKey : Key) (now : Int) (tok : Token) : GinResult :=
  match parseToken now { NewSessionWithKey secretKey with Token := tok } with
  | .error e =>
    .aborted 401
      (if e = AuthError.errExpiredToken then "Token has expired"
       else "Invalid token")
  | .ok c => .nexted [(userKey, CtxValue.vUint c.UserID)]

/-- `(*SessionManager).AuthMiddleware` on one request whose
`Authorization` header value is `authHeader` (gin's `GetHeader` returns
`""` for an absent header).  `jwtParse` is the jwt library's wire parser
turning the credential string into a structural `Token` (see `Token`);
the middleware is proved correct for every such parser. -/
def AuthMiddleware (secretKey : Key) (now : Int) (jwtParse : String → Token)
    (authHeader : String) : GinResult :=
  if authHeader = "" then
    .aborted 401 "Authorization header is required"
  else if ¬ goStringHasPre authHeader bearerSchema then
    .aborted 401 "Authorization header must start with \x27Bearer\x27"
  else if trimBearer authHeader = "" then
    .aborted 401 "Token is required"
  else
    tokenStep secretKey now (jwtParse (trimBearer authHeader))

/-- Running a protected route: the downstream handler executes only when
the middleware calls `c.Next()`; an abort is the response. -/
def runProtected (secretKey : Key) (now : Int) (jwtParse : String → Token)
    (handler : GinCtx → Nat × String) (authHeader : String) : Nat × String :=
  match AuthMiddleware secretKey now jwtParse authHeader with
  | .aborted st msg => (st, msg)
  | .nexted ctx => handler ctx

/-- `(*SessionManager).GetUserID`: the context value under `userKey` when
present and of dynamic type `uint`, else `0`. -/
def GetUserID (ctx : GinCtx) : Nat :=
  match ctxGet ctx userKey with
  | some (CtxValue.vUint n) => n
  | _ => 0

/-- `authentication.SessionManager` (the db/engine/ctx collaborators are
outside the model; only the owned secret matters to the claims). -/
structure SessionManager where
  secretKey : Key
deriving DecidableEq

/-- `NewSessionManager`, given the value of the `JWT_SECRET_KEY`
environment variable (`os.Getenv` returns `""` when unset, and
`len([]byte(v)) == 0` iff `v == ""`). -/
def NewSessionManager (jwtSecretKeyEnv : String) :
    Except String SessionManager :=
  if jwtSecretKeyEnv.length = 0 then
    .error "JWT_SECRET_KEY environment variable is not set"
  else
    .ok ⟨jwtSecretKeyEnv⟩

/-- `LoginRequest` after JSON decoding. -/
structure LoginRequest where
  Email : String
  Password : String
deriving DecidableEq

/-- Observable outcome of the `Login` handler: an error response
(status, `error` message) or 200 with the user and session of
`LoginResponse`. -/
inductive LoginOutcome where
  | response (status : Nat) (errorMsg : String)
  | success (user : SessionUser) (session : Session)
deriving DecidableEq

/-- The `binding:"required,email"` / `binding:"required,min=6"` tags of
`LoginRequest`, with the binding library's email-format check abstracted
to nonemptiness (no claim exercises a binding failure). -/
def bindLogin (req : LoginRequest) : Prop :=
  req.Email ≠ "" ∧ 6 ≤ req.Password.length

instance (req : LoginRequest) : Decidable (bindLogin req) := by
  unfold bindLogin; infer_instance

/-- `db.Where("email = ?", email).First(&user)`: the first stored user
with that email, `none` for `gorm.ErrRecordNotFound` (the pure store
cannot fail otherwise, so the internal-error branch is unreachable in the
model). -/
def findByEmail (users : List SessionUser) (email : String) :
    Option SessionUser :=
  users.find? (fun u => u.Email == email)

/-- `(*SessionManager).Login`.  `compareHash h p` is
`bcrypt.CompareHashAndPassword([]byte(h), []byte(p)) == nil`.  Binding
failure returns 400 with the binding library's message; unknown email and
wrong password both return the same generic 401; on success the session
is created via `NewSession`, stored, the password field is cleared, and
user and session are returned. -/
def Login (now : Int) (secretKey : Key) (users : List SessionUser)
    (compareHash : String → String → Bool) (req : LoginRequest)
    (clientIP userAgent : String) : LoginOutcome :=
  if ¬ bindLogin req then
    .response 400 "binding error"
  else
    match findByEmail users req.Email with
    | none => .response 401 "Invalid email or password"
    | some user =>
      if ¬ compareHash user.Password req.Password then
        .response 401 "Invalid email or password"
      else
        .success { user with Password := "" }
          (NewSession now secretKey user clientIP userAgent)

/-- `db.Where("user_id = ?", userID).Delete(&Session{})`: removes every
stored session row whose `UserID` is `userID` (gorm's soft delete hides
the row from every later query). -/
def deleteSessionsByUser (sessions : List Session) (userID : Nat) :
    List Session :=
  sessions.filter (fun s => s.UserID != userID)

/-- `(*SessionManager).Logout`: reads the authenticated user id from the
context (`GetUserID`), rejects 401 when it is the zero sentinel, else
deletes all of that user's session rows and confirms.  Returns the
response and the session store after the call. -/
def Logout (ctx : GinCtx) (sessions : List Session) :
    (Nat × String) × List Session :=
  let userID := GetUserID ctx
  if userID = 0 then
    ((401, "Not authenticated"), sessions)
  else
    ((200, "Successfully logged out"), deleteSessionsByUser sessions userID)

end GoWeb

namespace GoWeb

/-- C1: Round-trip: a token created by `createToken` with user id `u`,
secret `s.SecretKey` and ttl > 0 parses successfully under the same secret
at any instant `t` from creation up to (strictly before) expiry, and the
parsed claims carry `UserID = u`; likewise for `NewSession` with the fixed
24h TTL. -/
theorem createToken_parseToken_roundtrip
    (s : Session) (u : SessionUser) (now ttl t : Int)
    (hu : s.User = some u) (httl : 0 < ttl)
    (h1 : now ≤ t) (h2 : t < now + ttl)
    (secretKey : Key) (clientIP userAgent : String)
    (h1d : t < now + defaultTokenDuration) :
    (∃ s', s.createToken now ttl = .ok s' ∧
      ∃ c, parseToken t s' = .ok c ∧ c.UserID = u.base.ID) ∧
    (∃ c, parseToken t (NewSession now secretKey u clientIP userAgent) = .ok c ∧
      c.UserID = u.base.ID) := by
  have hA : ¬ (now + ttl ≤ t) := by omega
  have hB : ¬ (t < now) := by omega
  have hC : ¬ (now + defaultTokenDuration ≤ t) := by omega
  constructor
  · refine ⟨{ s with
        Token := Token.signed .HS256
          ⟨u.base.ID, now + ttl, now, now⟩ s.SecretKey,
        ExpiresAt := now + ttl }, ?_, ?_⟩
    · simp [Session.createToken, hu]
    · exact ⟨⟨u.base.ID, now + ttl, now, now⟩,
        by simp [parseToken, SigningMethod.isHMAC, hA, hB], rfl⟩
  · exact ⟨⟨u.base.ID, now + defaultTokenDuration, now, now⟩,
      by simp [NewSession, Session.UpdateLastUsed, parseToken,
        SigningMethod.isHMAC, hC, hB], rfl⟩

/-- Witness for C1 at concrete inputs. -/
theorem createToken_parseToken_roundtrip_witness :
    (∃ s', Session.createToken
        ⟨BaseModel.zero, some ⟨⟨123, 0, 0, none, ""⟩, "a@b.c", ""⟩, 0,
          Token.malformed "", "k", 0, 0, "", ""⟩ 100 3600 = .ok s' ∧
      ∃ c, parseToken 200 s' = .ok c ∧ c.UserID = 123) ∧
    (∃ c, parseToken 200 (NewSession 100 "k"
        ⟨⟨123, 0, 0, none, ""⟩, "a@b.c", ""⟩ "127.0.0.1" "ua") = .ok c ∧
      c.UserID = 123) := by
  exact createToken_parseToken_roundtrip _
    ⟨⟨123, 0, 0, none, ""⟩, "a@b.c", ""⟩
    100 3600 200 rfl (by omega) (by omega) (by omega) "k" "127.0.0.1" "ua"
    (by norm_num [defaultTokenDuration])

/-- C2: a token correctly signed under the session's secret with an
HMAC-family method, whose expiry is at or before the current instant,
fails `parseToken` with `errExpiredToken` (and hence never with
`errInvalidToken`). -/
theorem parseToken_expired
    (s : Session) (m : SigningMethod) (c : claims) (now : Int)
    (hm : m.isHMAC = true)
    (htok : s.Token = Token.signed m c s.SecretKey)
    (hexp : c.ExpiresAt ≤ now) :
    parseToken now s = .error .errExpiredToken := by
  simp only [parseToken, htok, hm]
  rw [if_neg (by simp), if_neg (by simp), if_pos hexp]

/-- Witness for C2 at concrete inputs. -/
theorem parseToken_expired_witness :
    parseToken 500
      ⟨BaseModel.zero, none, 0,
        Token.signed .HS256 ⟨7, 400, 0, 0⟩ "k", "k", 0, 0, "", ""⟩
      = .error .errExpiredToken :=
  parseToken_expired _ .HS256 ⟨7, 400, 0, 0⟩ 500 rfl rfl (by decide)

/-- C3: `parseToken` fails with `errInvalidToken` on every non-expiry
verification failure: a token signed under a key different from the
session's secret (whatever the method and claims), a structurally
malformed token, and a token whose algorithm header is not in the HMAC
family. -/
theorem parseToken_invalid
    (s : Session) (m : SigningMethod) (c : claims) (k2 : Key) (raw : String)
    (now : Int) :
    (s.Token = Token.signed m c k2 → k2 ≠ s.SecretKey →
      parseToken now s = .error .errInvalidToken) ∧
    (s.Token = Token.malformed raw →
      parseToken now s = .error .errInvalidToken) ∧
    (s.Token = Token.signed m c k2 → m.isHMAC = false →
      parseToken now s = .error .errInvalidToken) := by
  refine ⟨fun htok hk => ?_, fun htok => ?_, fun htok hm => ?_⟩
  · simp only [parseToken, htok]
    by_cases hm : m.isHMAC
    · rw [if_neg (by simp [hm]), if_pos hk]
    · rw [if_pos (by simp [hm])]
  · simp [parseToken, htok]
  · simp only [parseToken, htok]
    rw [if_pos (by simp [hm])]

/-- Witness for C3 at concrete inputs: wrong key, malformed string, and
non-HMAC algorithm each yield `errInvalidToken`. -/
theorem parseToken_invalid_witness :
    (parseToken 0 ⟨BaseModel.zero, none, 0,
        Token.signed .HS256 ⟨7, 999, 0, 0⟩ "k2", "k", 0, 0, "", ""⟩
      = .error .errInvalidToken) ∧
    (parseToken 0 ⟨BaseModel.zero, none, 0,
        Token.malformed "malformed.token.string", "k", 0, 0, "", ""⟩
      = .error .errInvalidToken) ∧
    (parseToken 0 ⟨BaseModel.zero, none, 0,
        Token.signed .RS256 ⟨7, 999, 0, 0⟩ "k", "k", 0, 0, "", ""⟩
      = .error .errInvalidToken) := by
  refine ⟨?_, ?_, ?_⟩
  · exact (parseToken_invalid _ .HS256 ⟨7, 999, 0, 0⟩ "k2" "" 0).1 rfl
      (by decide)
  · exact (parseToken_invalid _ .HS256 ⟨7, 999, 0, 0⟩ "k"
      "malformed.token.string" 0).2.1 rfl
  · exact (parseToken_invalid _ .RS256 ⟨7, 999, 0, 0⟩ "k" "" 0).2.2 rfl rfl

/-- C4: the middleware checks its rejection conditions in a fixed
short-circuiting order: a missing header is rejected with
`"Authorization header is required"` regardless of anything else; a
present header without the `"Bearer "` scheme is rejected with the
scheme message before credential emptiness matters; an empty credential
is rejected with `"Token is required"` before decoding; only a non-empty
credential reaches the token-decoding stage; and every abort is the
response — the downstream handler never runs. -/
theorem authMiddleware_rejection_order
    (secretKey : Key) (now : Int) (jwtParse : String → Token)
    (handler : GinCtx → Nat × String) (authHeader : String) :
    (authHeader = "" →
      AuthMiddleware secretKey now jwtParse authHeader =
        .aborted 401 "Authorization header is required") ∧
    (authHeader ≠ "" → goStringHasPre authHeader bearerSchema = false →
      AuthMiddleware secretKey now jwtParse authHeader =
        .aborted 401 "Authorization header must start with \x27Bearer\x27") ∧
    (goStringHasPre authHeader bearerSchema = true →
      trimBearer authHeader = "" →
      AuthMiddleware secretKey now jwtParse authHeader =
        .aborted 401 "Token is required") ∧
    (goStringHasPre authHeader bearerSchema = true →
      trimBearer authHeader ≠ "" →
      AuthMiddleware secretKey now jwtParse authHeader =
        tokenStep secretKey now (jwtParse (trimBearer authHeader))) ∧
    (∀ st msg, AuthMiddleware secretKey now jwtParse authHeader =
        .aborted st msg →
      runProtected secretKey now jwtParse handler authHeader = (st, msg)) := by
  have hne : goStringHasPre authHeader bearerSchema = true → authHeader ≠ "" := by
    intro hs he
    rw [he] at hs
    exact absurd hs (by decide)
  refine ⟨?_, ?_, ?_, ?_, ?_⟩
  · intro h
    simp [AuthMiddleware, h]
  · intro h1 h2
    simp [AuthMiddleware, h1, h2]
  · intro h1 h2
    simp [AuthMiddleware, hne h1, h1, h2]
  · intro h1 h2
    simp [AuthMiddleware, hne h1, h1, h2]
  · intro st msg h
    simp [runProtected, h]

/-- Witness for C4 at the four concrete headers. -/
theorem authMiddleware_rejection_order_witness :
    (AuthMiddleware "k" 0 Token.malformed "" =
      .aborted 401 "Authorization header is required") ∧
    (AuthMiddleware "k" 0 Token.malformed "Basic abc" =
      .aborted 401 "Authorization header must start with \x27Bearer\x27") ∧
    (AuthMiddleware "k" 0 Token.malformed "Bearer " =
      .aborted 401 "Token is required") ∧
    (AuthMiddleware "k" 0 Token.malformed "Bearer abc" =
      tokenStep "k" 0 (Token.malformed (trimBearer "Bearer abc"))) ∧
    (runProtected "k" 0 Token.malformed (fun _ => (200, "ok")) "" =
      (401, "Authorization header is required")) := by
  refine ⟨?_, ?_, ?_, ?_, ?_⟩
  · exact (authMiddleware_rejection_order "k" 0 Token.malformed
      (fun _ => (200, "ok")) "").1 rfl
  · exact (authMiddleware_rejection_order "k" 0 Token.malformed
      (fun _ => (200, "ok")) "Basic abc").2.1 (by decide) (by decide)
  · exact (authMiddleware_rejection_order "k" 0 Token.malformed
      (fun _ => (200, "ok")) "Bearer ").2.2.1 (by decide) (by decide)
  · exact (authMiddleware_rejection_order "k" 0 Token.malformed
      (fun _ => (200, "ok")) "Bearer abc").2.2.2.1 (by decide) (by decide)
  · exact (authMiddleware_rejection_order "k" 0 Token.malformed
      (fun _ => (200, "ok")) "").2.2.2.2 401 "Authorization header is required"
      ((authMiddleware_rejection_order "k" 0 Token.malformed
        (fun _ => (200, "ok")) "").1 rfl)

/-- C5: every session produced by issuance (`NewSession`, and any
successful `createToken`) carries a token whose signed claims' expiry
equals the session's `ExpiresAt` field; and an issued session, validated
at any instant `t` at or after issuance under a possibly different
current secret, is valid iff that secret is the signing secret and the
claims' expiry is still in the future. -/
theorem session_expiry_invariant
    (now t ttl : Int) (secretKey altKey : Key) (u : SessionUser)
    (ip ua : String) (s s' : Session)
    (hc : s.createToken now ttl = .ok s')
    (ht : now ≤ t) :
    (∃ c, (NewSession now secretKey u ip ua).Token =
        Token.signed .HS256 c secretKey ∧
      c.ExpiresAt = (NewSession now secretKey u ip ua).ExpiresAt) ∧
    (∃ c, s'.Token = Token.signed .HS256 c s.SecretKey ∧
      c.ExpiresAt = s'.ExpiresAt) ∧
    (Session.validateToken
        { NewSession now secretKey u ip ua with SecretKey := altKey } t
          = none ↔
      altKey = secretKey ∧
        t < (NewSession now secretKey u ip ua).ExpiresAt) := by
  have hB : ¬ (t < now) := by omega
  refine ⟨⟨_, rfl, rfl⟩, ?_, ?_⟩
  · cases hu : s.User with
    | none => simp [Session.createToken, hu] at hc
    | some user =>
      simp only [Session.createToken, hu, Except.ok.injEq] at hc
      exact ⟨_, by rw [← hc], by rw [← hc]⟩
  · show Session.validateToken _ t = none ↔
      altKey = secretKey ∧ t < now + defaultTokenDuration
    by_cases hk : secretKey = altKey
    · subst hk
      by_cases hx : now + defaultTokenDuration ≤ t
      · have hlt : ¬ (t < now + defaultTokenDuration) := by omega
        simp [Session.validateToken, parseToken, NewSession,
          Session.UpdateLastUsed, SigningMethod.isHMAC, hx, hB, hlt]
      · have hlt : t < now + defaultTokenDuration := by omega
        simp [Session.validateToken, parseToken, NewSession,
          Session.UpdateLastUsed, SigningMethod.isHMAC, hx, hB, hlt]
    · have hk' : altKey ≠ secretKey := fun h => hk h.symm
      simp [Session.validateToken, parseToken, NewSession,
        Session.UpdateLastUsed, SigningMethod.isHMAC, hk, hB, hk']

/-- Witness for C5 at concrete inputs. -/
theorem session_expiry_invariant_witness :
    (∃ c, (NewSession 100 "k" ⟨⟨123, 0, 0, none, ""⟩, "a@b.c", ""⟩
        "ip" "ua").Token = Token.signed .HS256 c "k" ∧
      c.ExpiresAt = (NewSession 100 "k" ⟨⟨123, 0, 0, none, ""⟩, "a@b.c", ""⟩
        "ip" "ua").ExpiresAt) ∧
    (∃ c, (⟨BaseModel.zero, some ⟨⟨123, 0, 0, none, ""⟩, "a@b.c", ""⟩, 0,
        Token.signed .HS256 ⟨123, 3700, 100, 100⟩ "k", "k", 3700, 0, "", ""⟩ :
          Session).Token = Token.signed .HS256 c "k" ∧
      c.ExpiresAt = (3700 : Int)) ∧
    (Session.validateToken
        { NewSession 100 "k" ⟨⟨123, 0, 0, none, ""⟩, "a@b.c", ""⟩ "ip" "ua"
          with SecretKey := "k" } 200 = none ↔
      ("k" : Key) = "k" ∧ (200 : Int) <
        (NewSession 100 "k" ⟨⟨123, 0, 0, none, ""⟩, "a@b.c", ""⟩
          "ip" "ua").ExpiresAt) :=
  session_expiry_invariant 100 200 3600 "k" "k"
    ⟨⟨123, 0, 0, none, ""⟩, "a@b.c", ""⟩ "ip" "ua"
    ⟨BaseModel.zero, some ⟨⟨123, 0, 0, none, ""⟩, "a@b.c", ""⟩, 0,
      Token.malformed "", "k", 0, 0, "", ""⟩
    ⟨BaseModel.zero, some ⟨⟨123, 0, 0, none, ""⟩, "a@b.c", ""⟩, 0,
      Token.signed .HS256 ⟨123, 3700, 100, 100⟩ "k", "k", 3700, 0, "", ""⟩
    rfl (by omega)

/-- C6: when the context carries an authenticated (non-zero) user id,
`Logout` succeeds and the resulting session store contains no row of that
user while keeping every other user's rows; and any still-unexpired token
of that user still parses successfully afterwards, since `parseToken`
reads only the signature and claims, never the session store. -/
theorem logout_deletes_all_user_sessions
    (ctx : GinCtx) (sessions : List Session) (uid : Nat)
    (hid : GetUserID ctx = uid) (h0 : uid ≠ 0)
    (now t : Int) (secretKey : Key) (u : SessionUser) (ip ua : String)
    (huid : u.base.ID = uid) (h1 : now ≤ t)
    (h2 : t < now + defaultTokenDuration) :
    (Logout ctx sessions).1 = (200, "Successfully logged out") ∧
    (∀ s ∈ (Logout ctx sessions).2, s.UserID ≠ uid) ∧
    (∀ s ∈ sessions, s.UserID ≠ uid → s ∈ (Logout ctx sessions).2) ∧
    (∃ c, parseToken t (NewSession now secretKey u ip ua) = .ok c ∧
      c.UserID = uid) := by
  have hC : ¬ (now + defaultTokenDuration ≤ t) := by omega
  have hB : ¬ (t < now) := by omega
  have hstore : (Logout ctx sessions).2 =
      sessions.filter (fun s => s.UserID != uid) := by
    simp [Logout, hid, h0, deleteSessionsByUser]
  refine ⟨by simp [Logout, hid, h0], ?_, ?_, ?_⟩
  · intro s hs
    rw [hstore, List.mem_filter] at hs
    simpa using hs.2
  · intro s hs hne
    rw [hstore, List.mem_filter]
    exact ⟨hs, by simpa using hne⟩
  · exact ⟨⟨u.base.ID, now + defaultTokenDuration, now, now⟩,
      by simp [NewSession, Session.UpdateLastUsed, parseToken,
        SigningMethod.isHMAC, hC, hB], huid⟩

/-- Witness for C6 at concrete inputs. -/
theorem logout_deletes_all_user_sessions_witness :
    (Logout [(userKey, CtxValue.vUint 5)]
        [⟨BaseModel.zero, none, 5, Token.malformed "", "", 0, 0, "", ""⟩,
         ⟨BaseModel.zero, none, 9, Token.malformed "", "", 0, 0, "", ""⟩]).1
      = (200, "Successfully logged out") ∧
    (∀ s ∈ (Logout [(userKey, CtxValue.vUint 5)]
        [⟨BaseModel.zero, none, 5, Token.malformed "", "", 0, 0, "", ""⟩,
         ⟨BaseModel.zero, none, 9, Token.malformed "", "", 0, 0, "", ""⟩]).2,
      s.UserID ≠ 5) ∧
    (∀ s ∈ [(⟨BaseModel.zero, none, 5, Token.malformed "", "", 0, 0, "", ""⟩ :
          Session),
         ⟨BaseModel.zero, none, 9, Token.malformed "", "", 0, 0, "", ""⟩],
      s.UserID ≠ 5 →
      s ∈ (Logout [(userKey, CtxValue.vUint 5)]
        [⟨BaseModel.zero, none, 5, Token.malformed "", "", 0, 0, "", ""⟩,
         ⟨BaseModel.zero, none, 9, Token.malformed "", "", 0, 0, "", ""⟩]).2) ∧
    (∃ c, parseToken 200
        (NewSession 100 "k" ⟨⟨5, 0, 0, none, ""⟩, "a@b.c", ""⟩ "ip" "ua")
      = .ok c ∧ c.UserID = 5) :=
  logout_deletes_all_user_sessions [(userKey, CtxValue.vUint 5)]
    [⟨BaseModel.zero, none, 5, Token.malformed "", "", 0, 0, "", ""⟩,
     ⟨BaseModel.zero, none, 9, Token.malformed "", "", 0, 0, "", ""⟩]
    5 (by decide) (by decide) 100 200 "k"
    ⟨⟨5, 0, 0, none, ""⟩, "a@b.c", ""⟩ "ip" "ua" rfl (by omega)
    (by norm_num [defaultTokenDuration])

/-- C7: `GetUserID` returns the bound id when the context holds a value
of dynamic type `uint` under the user key, and the zero sentinel both
when nothing is bound and when the bound value has an unexpected type;
being a total function, it never raises. -/
theorem getUserID_sentinel
    (ctx : GinCtx) (n : Nat) (v : CtxValue) :
    (ctxGet ctx userKey = some (CtxValue.vUint n) → GetUserID ctx = n) ∧
    (ctxGet ctx userKey = none → GetUserID ctx = 0) ∧
    (ctxGet ctx userKey = some v → (∀ m, v ≠ CtxValue.vUint m) →
      GetUserID ctx = 0) := by
  refine ⟨fun h => by simp [GetUserID, h], fun h => by simp [GetUserID, h],
    fun h hv => ?_⟩
  cases v with
  | vUint m => exact absurd rfl (hv m)
  | vInt m => simp [GetUserID, h]
  | vString s => simp [GetUserID, h]

/-- Witness for C7 at concrete contexts. -/
theorem getUserID_sentinel_witness :
    (GetUserID [(userKey, CtxValue.vUint 42)] = 42) ∧
    (GetUserID [] = 0) ∧
    (GetUserID [(userKey, CtxValue.vString "42")] = 0) := by
  refine ⟨?_, ?_, ?_⟩
  · exact (getUserID_sentinel [(userKey, CtxValue.vUint 42)] 42
      (CtxValue.vUint 42)).1 (by decide)
  · exact (getUserID_sentinel [] 0 (CtxValue.vUint 0)).2.1 (by decide)
  · exact (getUserID_sentinel [(userKey, CtxValue.vString "42")] 0
      (CtxValue.vString "42")).2.2 (by decide) (fun m => by simp)

/-- C8: a login whose email matches no stored user and a login whose
email matches a user but whose password fails the hash comparison produce
the same response — 401 with the same generic message — so the response
does not reveal which field was wrong; and a successful login returns the
matched user with the password field stripped. -/
theorem login_no_user_enumeration
    (now : Int) (secretKey : Key) (users : List SessionUser)
    (compareHash : String → String → Bool)
    (reqA reqB : LoginRequest) (ipA uaA ipB uaB : String)
    (hbA : bindLogin reqA) (hbB : bindLogin reqB)
    (hA : findByEmail users reqA.Email = none)
    (uB : SessionUser) (hB : findByEmail users reqB.Email = some uB)
    (hpw : compareHash uB.Password reqB.Password = false) :
    Login now secretKey users compareHash reqA ipA uaA =
      .response 401 "Invalid email or password" ∧
    Login now secretKey users compareHash reqB ipB uaB =
      .response 401 "Invalid email or password" ∧
    Login now secretKey users compareHash reqA ipA uaA =
      Login now secretKey users compareHash reqB ipB uaB ∧
    (∀ req u ip ua, bindLogin req → findByEmail users req.Email = some u →
      compareHash u.Password req.Password = true →
      Login now secretKey users compareHash req ip ua =
        .success { u with Password := "" }
          (NewSession now secretKey u ip ua) ∧
      ({ u with Password := "" } : SessionUser).Password = "") := by
  have h1 : Login now secretKey users compareHash reqA ipA uaA =
      .response 401 "Invalid email or password" := by
    simp [Login, hbA, hA]
  have h2 : Login now secretKey users compareHash reqB ipB uaB =
      .response 401 "Invalid email or password" := by
    simp [Login, hbB, hB, hpw]
  refine ⟨h1, h2, h1.trans h2.symm, fun req u ip ua hb hf hcmp => ⟨?_, rfl⟩⟩
  simp [Login, hb, hf, hcmp]

/-- Witness for C8 at concrete inputs (the comparison function stands in
for bcrypt). -/
theorem login_no_user_enumeration_witness :
    Login 0 "k" [⟨⟨1, 0, 0, none, ""⟩, "a@b.c", "hashedpw"⟩]
      (fun h p => h == p) ⟨"x@y.z", "secret1"⟩ "ip" "ua" =
      .response 401 "Invalid email or password" ∧
    Login 0 "k" [⟨⟨1, 0, 0, none, ""⟩, "a@b.c", "hashedpw"⟩]
      (fun h p => h == p) ⟨"a@b.c", "wrongpw"⟩ "ip" "ua" =
      .response 401 "Invalid email or password" ∧
    Login 0 "k" [⟨⟨1, 0, 0, none, ""⟩, "a@b.c", "hashedpw"⟩]
      (fun h p => h == p) ⟨"x@y.z", "secret1"⟩ "ip" "ua" =
    Login 0 "k" [⟨⟨1, 0, 0, none, ""⟩, "a@b.c", "hashedpw"⟩]
      (fun h p => h == p) ⟨"a@b.c", "wrongpw"⟩ "ip" "ua" ∧
    (Login 0 "k" [⟨⟨1, 0, 0, none, ""⟩, "a@b.c", "hashedpw"⟩]
        (fun h p => h == p) ⟨"a@b.c", "hashedpw"⟩ "ip" "ua" =
      .success ⟨⟨1, 0, 0, none, ""⟩, "a@b.c", ""⟩
        (NewSession 0 "k" ⟨⟨1, 0, 0, none, ""⟩, "a@b.c", "hashedpw"⟩
          "ip" "ua") ∧
      (⟨⟨1, 0, 0, none, ""⟩, "a@b.c", ""⟩ : SessionUser).Password = "") := by
  have h := login_no_user_enumeration 0 "k"
    [⟨⟨1, 0, 0, none, ""⟩, "a@b.c", "hashedpw"⟩] (fun h p => h == p)
    ⟨"x@y.z", "secret1"⟩ ⟨"a@b.c", "wrongpw"⟩ "ip" "ua" "ip" "ua"
    (by constructor <;> decide) (by constructor <;> decide)
    (by decide) ⟨⟨1, 0, 0, none, ""⟩, "a@b.c", "hashedpw"⟩ (by decide)
    (by decide)
  exact ⟨h.1, h.2.1, h.2.2.1,
    h.2.2.2 ⟨"a@b.c", "hashedpw"⟩ ⟨⟨1, 0, 0, none, ""⟩, "a@b.c", "hashedpw"⟩
      "ip" "ua" (by constructor <;> decide) (by decide) (by decide)⟩

/-- C9: constructing the session manager fails exactly when the
`JWT_SECRET_KEY` environment variable yields an empty key, and otherwise
returns a manager holding that key. -/
theorem newSessionManager_requires_secret (env : String) :
    (env = "" → NewSessionManager env =
      .error "JWT_SECRET_KEY environment variable is not set") ∧
    (env ≠ "" → NewSessionManager env = .ok ⟨env⟩) := by
  constructor
  · intro h
    subst h
    rfl
  · intro h
    have : env.length ≠ 0 := by
      intro hlen
      exact h (String.ext (List.length_eq_zero.mp hlen))
    simp [NewSessionManager, this]

/-- Witness for C9 at both a missing and a present secret. -/
theorem newSessionManager_requires_secret_witness :
    (NewSessionManager "" =
      .error "JWT_SECRET_KEY environment variable is not set") ∧
    (NewSessionManager "test-secret-key" = .ok ⟨"test-secret-key"⟩) :=
  ⟨(newSessionManager_requires_secret "").1 rfl,
   (newSessionManager_requires_secret "test-secret-key").2 (by decide)⟩

/-- C10: `UpdateLastUsed ip location` sets exactly the three last-used
fields (`LastUsedAt`, `LastUsedIP`, `LastUsedLoc`) and leaves `Token`,
`SecretKey`, `User`, `UserID`, `ExpiresAt` (and the base record)
unchanged. -/
theorem updateLastUsed_frame (s : Session) (now : Int) (ip location : String) :
    (s.UpdateLastUsed now ip location).LastUsedAt = now ∧
    (s.UpdateLastUsed now ip location).LastUsedIP = ip ∧
    (s.UpdateLastUsed now ip location).LastUsedLoc = location ∧
    (s.UpdateLastUsed now ip location).Token = s.Token ∧
    (s.UpdateLastUsed now ip location).SecretKey = s.SecretKey ∧
    (s.UpdateLastUsed now ip location).User = s.User ∧
    (s.UpdateLastUsed now ip location).UserID = s.UserID ∧
    (s.UpdateLastUsed now ip location).ExpiresAt = s.ExpiresAt ∧
    (s.UpdateLastUsed now ip location).base = s.base :=
  ⟨rfl, rfl, rfl, rfl, rfl, rfl, rfl, rfl, rfl⟩

end GoWeb
